import Mathlib

/- Verification development for asconfig.c (padgettr/asconfig).

   The repository is a single C file: a GTK front end around two core pieces
   of logic, both embedded here as pure functions.

   * scancards (asconfig.c:134-260): per device, opens the pcm, queries the
     hardware parameter space and negotiates default rate / format / channel
     values with fallbacks.  The per-device part is embedded as scanRow: the
     ALSA responses (parameter ranges, the outcome of the three
     snd_pcm_hw_params_set_* negotiation calls, busy/error open results) are
     inputs of type OpenResult / HwResponse, and the resulting list-store row
     is a DevRecord holding exactly the columns print_asoundrc later reads.

   * print_asoundrc (asconfig.c:357-566): validates the selection, applies
     the overwrite-confirmation policy, and emits the asoundrc text as a
     fixed sequence of fprintf calls.  Every fprintf call site with a fixed
     format string is one Block constructor carrying the varying fields, so
     the emitted byte sequence is a function of the Block list.  The GTK
     widget reads (combo indices, switch states, tree selections) and the
     file-system facts (file exists, dialog response, fopen success) are
     inputs. -/

/-- Preferred default sample rate (ASCONFIG_DEFAULT_RATE, asconfig.c:24). -/
def ASCONFIG_DEFAULT_RATE : Nat := 48000

/-- Preferred default sample format name (asconfig.c:25). -/
def ASCONFIG_DEFAULT_FORMAT_NAME : String := "S16_LE"

/-- Preferred default channel count (asconfig.c:27). -/
def ASCONFIG_DEFAULT_CHANNELS : Nat := 2

/-- Stream input format for the alsa file plugin (asconfig.c:51). -/
def ASCONFIG_STREAM_INPUT_FORMAT : String := "raw"

/-- Stream output command (asconfig.c:52). -/
def ASCONFIG_STREAM_COMMAND : String :=
  "| lame -r --bitwidth %b -s %r -m j -q6 --cbr -b 192 - - | /usr/local/bin/ezstream -c /path/to/config"

/-- The resampler dropdown entries (asconfig.c:105). -/
def resamplers : List String := ["speexrate", "speexrate_medium", "speexrate_best"]

/-- GTK dialog response codes used by print_asoundrc / show_actionbox. -/
def GTK_RESPONSE_YES : Int := -8

/-- GTK response code for the No button (the only value print_asoundrc tests). -/
def GTK_RESPONSE_NO : Int := -9

/-- GTK response code returned when the dialog is dismissed without a button. -/
def GTK_RESPONSE_DELETE_EVENT : Int := -4

/-- One row of the device list store, restricted to the columns consumed by
    print_asoundrc (asconfig.c:381, 402-412, 427-433).  in_use mirrors
    COLUMN_IN_USE: a GTK string column is NULL when never set, hence Option;
    guint columns are 0 when never set. -/
structure DevRecord where
  in_use : Option String
  card : Nat
  dev : Nat
  min_ch : Nat
  max_ch : Nat
  min_sr : Nat
  max_sr : Nat
  defaultRate : Nat
  defaultFormat : Option String
  defaultChannels : Nat
deriving DecidableEq

/-- The hardware's replies to the parameter queries done by scancards for one
    device (asconfig.c:207-233): the reported ranges and format list, and the
    outcomes of the three negotiation calls.  rateNear models
    snd_pcm_hw_params_set_rate_near, which on success overwrites defaultRate
    with the chosen nearby rate (some r) and on failure returns nonzero
    (none).  formatOk / channelsOk model the return codes of
    snd_pcm_hw_params_set_format / set_channels. -/
structure HwResponse where
  min_ch : Nat
  max_ch : Nat
  min_sr : Nat
  max_sr : Nat
  formats : List String
  rateNear : Option Nat
  formatOk : Bool
  channelsOk : Bool
deriving DecidableEq

/-- Outcome of snd_pcm_open plus snd_pcm_hw_params_any for one device
    (asconfig.c:196-252): open succeeded and the parameter query succeeded
    (ok), open failed with EBUSY (busy), open failed otherwise (openErr),
    or open succeeded but the parameter query failed (paramsErr). -/
inductive OpenResult where
  | ok (pars : HwResponse)
  | busy
  | openErr
  | paramsErr
deriving DecidableEq

/-- Negotiated default rate (asconfig.c:218-221): start from the preferred
    rate, let set_rate_near overwrite it on success, fall back to the
    hardware minimum on error. -/
def negotiatedRate (h : HwResponse) : Nat :=
  match h.rateNear with
  | some r => r
  | none => h.min_sr

/-- Negotiated default format (asconfig.c:223-227): the preferred format if
    accepted, else the first hardware-reported format (sample_formats[0]). -/
def negotiatedFormat (h : HwResponse) : String :=
  if h.formatOk then ASCONFIG_DEFAULT_FORMAT_NAME else h.formats.getD 0 ""

/-- Negotiated default channel count (asconfig.c:229-233): the preferred
    count if accepted, else the hardware minimum. -/
def negotiatedChannels (h : HwResponse) : Nat :=
  if h.channelsOk then ASCONFIG_DEFAULT_CHANNELS else h.min_ch

/-- The list-store row scancards produces for one device (asconfig.c:186-252):
    busy devices get in_use "*"; open or parameter-query errors get "E" and
    leave the capability columns unset (guint 0 / NULL string); a successful
    query clears in_use and stores the ranges and negotiated defaults. -/
def scanRow (card dev : Nat) (res : OpenResult) : DevRecord :=
  match res with
  | .ok h => ⟨none, card, dev, h.min_ch, h.max_ch, h.min_sr, h.max_sr,
              negotiatedRate h, some (negotiatedFormat h), negotiatedChannels h⟩
  | .busy => ⟨some "*", card, dev, 0, 0, 0, 0, 0, none, 0⟩
  | .openErr => ⟨some "E", card, dev, 0, 0, 0, 0, 0, none, 0⟩
  | .paramsErr => ⟨some "E", card, dev, 0, 0, 0, 0, 0, none, 0⟩

/-- One fprintf call site of print_asoundrc with a fixed format string.  The
    constructor identifies the call site (hence the literal text emitted) and
    the fields carry the varying %-arguments, so a Block list determines the
    emitted bytes.  capComment / pbComment n are the fixed interface-type
    comments of switch case n (asconfig.c:450,456,465 and 511,527,544);
    dmixNote is the usage note printed by add_dmixStream before its softvol
    block; hwPcm covers the two selected-device hw blocks including their
    one-line leading comment, which is determined by the name argument. -/
inductive Block where
  | header
  | capComment (mode : Nat)
  | pbComment (mode : Nat)
  | hwPcm (name : String) (card dev : Nat)
  | dsnoop (name slave fmt : String) (rate ch : Nat)
  | dmixNote (streamPCM : String)
  | softvol (name slave : String)
  | fileOut (name fmt slave file : String)
  | plug (name slave : String)
  | dmix (name slave fmt : String) (ch rate : Nat)
  | forced (name fmt : String) (ch rate : Nat)
  | rateConv (name : String)
  | ctlDefault (card : Nat)
  | defaultPcm (playback : String) (capture : Option String)
deriving DecidableEq

/-- The slave pcm reference a block carries, if any: the pcm named in a
    slave clause of the dsnoop / softvol / file / plug / dmix templates.
    The default-selector's playback/capture references are handled
    separately. -/
def slaveOf : Block → Option String
  | .header => none
  | .capComment _ => none
  | .pbComment _ => none
  | .hwPcm _ _ _ => none
  | .dsnoop _ s _ _ _ => some s
  | .dmixNote _ => none
  | .softvol _ s => some s
  | .fileOut _ _ s _ => some s
  | .plug _ s => some s
  | .dmix _ s _ _ _ => some s
  | .forced _ _ _ _ => none
  | .rateConv _ => none
  | .ctlDefault _ => none
  | .defaultPcm _ _ => none

/-- The pcm name a block defines, if any: the NAME of a pcm.!NAME stage
    template.  The forced-parameter block pcm.+NAME overrides an existing
    stage and defines none; the default selector is the reserved name
    default and is never referenced by a slave clause. -/
def nameOf : Block → Option String
  | .header => none
  | .capComment _ => none
  | .pbComment _ => none
  | .hwPcm n _ _ => some n
  | .dsnoop n _ _ _ _ => some n
  | .dmixNote _ => none
  | .softvol n _ => some n
  | .fileOut n _ _ _ => some n
  | .plug n _ => some n
  | .dmix n _ _ _ _ => some n
  | .forced _ _ _ _ => none
  | .rateConv _ => none
  | .ctlDefault _ => none
  | .defaultPcm _ _ => none

/-- Whether a block is the forced-parameter override block pcm.+NAME. -/
def isForced : Block → Bool
  | .header => false
  | .capComment _ => false
  | .pbComment _ => false
  | .hwPcm _ _ _ => false
  | .dsnoop _ _ _ _ _ => false
  | .dmixNote _ => false
  | .softvol _ _ => false
  | .fileOut _ _ _ _ => false
  | .plug _ _ => false
  | .dmix _ _ _ _ _ => false
  | .forced _ _ _ _ => true
  | .rateConv _ => false
  | .ctlDefault _ => false
  | .defaultPcm _ _ => false

/-- Names of the pcm stages defined by a block list. -/
def pcmNames (l : List Block) : List String :=
  l.filterMap nameOf

/-- add_dsnoop (asconfig.c:263-284). -/
def add_dsnoop (pcmName slavePCM defaultFormat : String)
    (defaultChannels defaultRate : Nat) : List Block :=
  [.dsnoop pcmName slavePCM defaultFormat defaultRate defaultChannels]

/-- add_dmixStream (asconfig.c:286-306): the usage note then the softvol
    block named pcmName slaved to dmixPCM. -/
def add_dmixStream (pcmName dmixPCM streamPCM : String) : List Block :=
  [.dmixNote streamPCM, .softvol pcmName dmixPCM]

/-- add_streamOut (asconfig.c:308-318). -/
def add_streamOut (pcmName streamFormat streamSlavePCM streamCommand : String) : List Block :=
  [.fileOut pcmName streamFormat streamSlavePCM streamCommand]

/-- add_plug (asconfig.c:320-328). -/
def add_plug (pcmName slavePCM : String) : List Block :=
  [.plug pcmName slavePCM]

/-- add_dmix (asconfig.c:330-343). -/
def add_dmix (pcmName slavePCM defaultFormat : String)
    (defaultChannels defaultRate : Nat) : List Block :=
  [.dmix pcmName slavePCM defaultFormat defaultChannels defaultRate]

/-- add_default (asconfig.c:345-355): the one-line form when no capture pcm
    is present, the asym form otherwise; one block either way. -/
def add_default (playbackPCM : String) (capturePCM : Option String) : List Block :=
  [.defaultPcm playbackPCM capturePCM]

/-- Fallback applied to an undefined stored rate (asconfig.c:415,434). -/
def fbRate (r : DevRecord) : Nat :=
  if r.defaultRate = 0 then ASCONFIG_DEFAULT_RATE else r.defaultRate

/-- Fallback applied to an undefined stored format (asconfig.c:416,435). -/
def fbFormat (r : DevRecord) : String :=
  r.defaultFormat.getD ASCONFIG_DEFAULT_FORMAT_NAME

/-- Fallback applied to an undefined stored channel count (asconfig.c:417,436). -/
def fbChannels (r : DevRecord) : Nat :=
  if r.defaultChannels = 0 then ASCONFIG_DEFAULT_CHANNELS else r.defaultChannels

/-- Final value of defaultCapturePCM after the capture section
    (asconfig.c:438-476): NULL when no capture row is selected, otherwise
    "capture", replaced by "matchCapture" in the plug and dsnoop cases.
    When no capture row is selected captureInterfaceType keeps its initial
    value -1, so the switch takes the do-nothing default branch. -/
def capturePCM (cap : Option DevRecord) (captureInterfaceType : Int) : Option String :=
  match cap with
  | none => none
  | some _ =>
    if captureInterfaceType = 1 then some "matchCapture"
    else if captureInterfaceType = 2 then some "matchCapture"
    else some "capture"

/-- Blocks emitted by the capture section (asconfig.c:426-476): the selected
    capture hw block, then the per-interface-type comment and stages. -/
def captureBlocks (cap : Option DevRecord) (captureInterfaceType : Int) : List Block :=
  match cap with
  | none => []
  | some cr =>
    [.hwPcm "capture" cr.card cr.dev] ++
    (if captureInterfaceType = 0 then [.capComment 0]
     else if captureInterfaceType = 1 then
       [.capComment 1] ++ add_plug "matchCapture" "capture"
     else if captureInterfaceType = 2 then
       [.capComment 2] ++ add_plug "matchCapture" "snoopCapture" ++
         add_dsnoop "snoopCapture" "capture" (fbFormat cr) (fbChannels cr) (fbRate cr)
     else [])

/-- Blocks of the common setup (asconfig.c:478-507): the playback hw block,
    the forced-parameter block for single-rate cards, the rate-converter
    declaration and the ctl default block. -/
def commonBlocks (r : DevRecord) (resampler : Nat) : List Block :=
  [.hwPcm "playback" r.card r.dev] ++
  (if 0 < r.min_sr ∧ r.min_sr = r.max_sr then
     [.forced "playback" (fbFormat r) (fbChannels r) (fbRate r)]
   else []) ++
  [.rateConv (resamplers.getD resampler ""), .ctlDefault r.card]

/-- Blocks emitted by the playback interface switch (asconfig.c:509-559),
    mirroring the defaultPlaybackPCM / slavePCM string juggling: in cases 0
    and 1 an enabled default tap makes the tap slave the hardware stage and
    renames the default endpoint to "stream"; a non-default tap slaves the
    null device.  Case 2 never consults streamDefault.  The default branch
    only warns and emits the bare default selector. -/
def playbackBlocks (playbackInterfaceType : Int) (streamSwitchState streamDefault : Bool)
    (defaultFormat : String) (defaultChannels defaultRate : Nat)
    (defaultCapturePCM : Option String) : List Block :=
  if playbackInterfaceType = 0 then
    [.pbComment 0] ++
    (if streamSwitchState then
       add_streamOut "stream" ASCONFIG_STREAM_INPUT_FORMAT
         (if streamDefault then "playback" else "null") ASCONFIG_STREAM_COMMAND
     else []) ++
    add_default (if streamSwitchState && streamDefault then "stream" else "playback")
      defaultCapturePCM
  else if playbackInterfaceType = 1 then
    [.pbComment 1] ++
    (if streamSwitchState then
       add_streamOut "stream" ASCONFIG_STREAM_INPUT_FORMAT
         (if streamDefault then "playback" else "null") ASCONFIG_STREAM_COMMAND
     else []) ++
    add_plug "match" (if streamSwitchState && streamDefault then "stream" else "playback") ++
    add_default "match" defaultCapturePCM
  else if playbackInterfaceType = 2 then
    [.pbComment 2] ++
    (if streamSwitchState then
       add_dmixStream "streamvol" "mix" "stream" ++
         add_streamOut "stream" ASCONFIG_STREAM_INPUT_FORMAT "streamvol" ASCONFIG_STREAM_COMMAND
     else []) ++
    add_plug "match" "mix" ++
    add_dmix "mix" "playback" defaultFormat defaultChannels defaultRate ++
    add_default "match" defaultCapturePCM
  else
    add_default "playback" defaultCapturePCM

/-- The full block sequence written once the file is open
    (asconfig.c:400-559): header comment, capture section, common setup,
    playback interface switch. -/
def emitBody (r : DevRecord) (cap : Option DevRecord) (captureInterfaceType : Int)
    (resampler : Nat) (playbackInterfaceType : Int)
    (streamSwitchState streamDefault : Bool) : List Block :=
  Block.header ::
    (captureBlocks cap captureInterfaceType ++
      (commonBlocks r resampler ++
        playbackBlocks playbackInterfaceType streamSwitchState streamDefault
          (fbFormat r) (fbChannels r) (fbRate r)
          (capturePCM cap captureInterfaceType)))

/-- Exit paths of print_asoundrc: the three early returns with a message box
    (asconfig.c:377-386, 396-399), the silent declined-overwrite return
    (asconfig.c:391-392), and the successful write. -/
inductive GenOutcome where
  | noPlaybackSelection
  | deviceInUse
  | overwriteDeclined
  | openFailed
  | written
deriving DecidableEq

/-- print_asoundrc (asconfig.c:357-566).  Inputs: the selected playback and
    capture rows (none = no tree selection), the widget states, whether
    .asoundrc already exists, the response of the overwrite dialog (consulted
    only when the file exists) and whether fopen succeeds.  Result: the exit
    path taken, and the content now at the destination (none = the
    destination was never opened, so a prior artifact is unchanged). -/
def print_asoundrc (playbackSel cap : Option DevRecord) (captureInterfaceType : Int)
    (resampler : Nat) (playbackInterfaceType : Int) (streamSwitchState streamDefault : Bool)
    (asoundrcExists : Bool) (overwriteResponse : Int) (fopenOk : Bool) :
    GenOutcome × Option (List Block) :=
  match playbackSel with
  | none => (.noPlaybackSelection, none)
  | some r =>
    if r.in_use.isSome then (.deviceInUse, none)
    else if asoundrcExists ∧ overwriteResponse = GTK_RESPONSE_NO then (.overwriteDeclined, none)
    else if fopenOk = false then (.openFailed, none)
    else (.written, some (emitBody r cap captureInterfaceType resampler playbackInterfaceType
                            streamSwitchState streamDefault))

/-- Sample hardware reply where only the preferred rate is rejected. -/
def hRateRejected : HwResponse :=
  ⟨2, 8, 8000, 96000, ["S32_LE", "S16_LE"], none, true, true⟩

/-- Sample free playback record as scancards stores it for a card whose
    range is [44100,48000] and which accepts all preferred defaults. -/
def freeRec : DevRecord :=
  ⟨none, 0, 0, 2, 2, 44100, 48000, 48000, some "S16_LE", 2⟩

/-- Sample busy playback record as scancards stores it. -/
def busyRec : DevRecord := ⟨some "*", 0, 0, 0, 0, 0, 0, 0, none, 0⟩

/-- C2: for a device whose parameter query succeeds, the three negotiation
    steps are independent: a rejected preferred rate yields the hardware
    minimum rate, a rejected preferred format yields the first
    hardware-reported format, a rejected preferred channel count yields the
    hardware minimum channels, and when exactly one step is rejected the
    other two default fields keep the preferred values. -/
theorem scancards_negotiation_fallbacks (h : HwResponse) (c d : Nat) (f : String)
    (fs : List String) (hf : h.formats = f :: fs) :
    (h.rateNear = none → (scanRow c d (.ok h)).defaultRate = h.min_sr)
    ∧ (h.formatOk = false → (scanRow c d (.ok h)).defaultFormat = some f)
    ∧ (h.channelsOk = false → (scanRow c d (.ok h)).defaultChannels = h.min_ch)
    ∧ (h.rateNear = none → h.formatOk = true → h.channelsOk = true →
        (scanRow c d (.ok h)).defaultFormat = some ASCONFIG_DEFAULT_FORMAT_NAME
        ∧ (scanRow c d (.ok h)).defaultChannels = ASCONFIG_DEFAULT_CHANNELS)
    ∧ (h.formatOk = false → h.rateNear = some ASCONFIG_DEFAULT_RATE → h.channelsOk = true →
        (scanRow c d (.ok h)).defaultRate = ASCONFIG_DEFAULT_RATE
        ∧ (scanRow c d (.ok h)).defaultChannels = ASCONFIG_DEFAULT_CHANNELS)
    ∧ (h.channelsOk = false → h.rateNear = some ASCONFIG_DEFAULT_RATE → h.formatOk = true →
        (scanRow c d (.ok h)).defaultRate = ASCONFIG_DEFAULT_RATE
        ∧ (scanRow c d (.ok h)).defaultFormat = some ASCONFIG_DEFAULT_FORMAT_NAME) := by
  refine ⟨?_, ?_, ?_, ?_, ?_, ?_⟩ <;> intros <;>
    simp_all [scanRow, negotiatedRate, negotiatedFormat, negotiatedChannels]

/-- Witness for C2 at a concrete hardware reply rejecting only the rate. -/
theorem scancards_negotiation_fallbacks_witness :
    (scanRow 0 0 (.ok hRateRejected)).defaultRate = hRateRejected.min_sr
    ∧ (scanRow 0 0 (.ok hRateRejected)).defaultFormat = some ASCONFIG_DEFAULT_FORMAT_NAME
    ∧ (scanRow 0 0 (.ok hRateRejected)).defaultChannels = ASCONFIG_DEFAULT_CHANNELS := by
  have h := scancards_negotiation_fallbacks hRateRejected 0 0 "S32_LE" ["S16_LE"] rfl
  exact ⟨h.1 rfl, (h.2.2.2.1 rfl rfl rfl).1, (h.2.2.2.1 rfl rfl rfl).2⟩

/-- C4: with no playback selection, or a selected playback record whose
    availability flag is set, print_asoundrc returns the corresponding
    precondition error and the destination is never opened (second component
    none: no file written, a prior artifact is unchanged). -/
theorem plan_precondition_failures (psel cap : Option DevRecord) (ct : Int) (res : Nat)
    (pt : Int) (ssw sdef prior : Bool) (resp : Int) (opok : Bool) :
    (psel = none →
      print_asoundrc psel cap ct res pt ssw sdef prior resp opok = (.noPlaybackSelection, none))
    ∧ (∀ r s, psel = some r → r.in_use = some s →
      print_asoundrc psel cap ct res pt ssw sdef prior resp opok = (.deviceInUse, none)) := by
  constructor
  · rintro rfl; rfl
  · rintro r s rfl hs
    simp [print_asoundrc, hs]

/-- Witness for C4: both precondition failures at concrete inputs. -/
theorem plan_precondition_failures_witness :
    print_asoundrc none none (-1) 1 1 false false false (-8) true = (.noPlaybackSelection, none)
    ∧ print_asoundrc (some busyRec) none (-1) 1 1 false false false (-8) true
        = (.deviceInUse, none) :=
  ⟨(plan_precondition_failures none none (-1) 1 1 false false false (-8) true).1 rfl,
   (plan_precondition_failures (some busyRec) none (-1) 1 1 false false false (-8) true).2
     busyRec "*" rfl rfl⟩

/-- C9: any non-empty availability flag blocks generation, not only the busy
    flag: whatever string the flag holds, print_asoundrc reports the in-use
    error and returns before the destination is touched; and the flags
    scancards produces are "*" for a busy open and "E" for open or
    parameter-query errors. -/
theorem nonfree_flag_blocks_generation (r : DevRecord) (s : String) (hs : r.in_use = some s)
    (cap : Option DevRecord) (ct : Int) (res : Nat) (pt : Int) (ssw sdef prior : Bool)
    (resp : Int) (opok : Bool) (c d : Nat) :
    print_asoundrc (some r) cap ct res pt ssw sdef prior resp opok = (.deviceInUse, none)
    ∧ (scanRow c d .busy).in_use = some "*"
    ∧ (scanRow c d .openErr).in_use = some "E"
    ∧ (scanRow c d .paramsErr).in_use = some "E" :=
  ⟨by simp [print_asoundrc, hs], rfl, rfl, rfl⟩

/-- Witness for C9 at the record of a device whose open failed with an
    error other than EBUSY (flag "E"). -/
theorem nonfree_flag_blocks_generation_witness :
    print_asoundrc (some (scanRow 0 0 .openErr)) none (-1) 1 2 false false true (-8) true
      = (.deviceInUse, none) :=
  (nonfree_flag_blocks_generation (scanRow 0 0 .openErr) "E" rfl none (-1) 1 2 false false
    true (-8) true 0 0).1

theorem any_isForced_captureBlocks (cap : Option DevRecord) (t : Int) :
    (captureBlocks cap t).any isForced = false := by
  cases cap with
  | none => rfl
  | some cr =>
    by_cases h0 : t = 0
    · subst h0; rfl
    · by_cases h1 : t = 1
      · subst h1; rfl
      · by_cases h2 : t = 2
        · subst h2; rfl
        · simp [captureBlocks, h0, h1, h2, isForced]

theorem any_isForced_playbackBlocks (pt : Int) (ssw sdef : Bool) (f : String) (ch rt : Nat)
    (cp : Option String) :
    (playbackBlocks pt ssw sdef f ch rt cp).any isForced = false := by
  by_cases h0 : pt = 0
  · subst h0; cases ssw <;> cases sdef <;> rfl
  · by_cases h1 : pt = 1
    · subst h1; cases ssw <;> cases sdef <;> rfl
    · by_cases h2 : pt = 2
      · subst h2; cases ssw <;> cases sdef <;> rfl
      · simp [playbackBlocks, h0, h1, h2, add_default, isForced]

theorem any_isForced_commonBlocks (r : DevRecord) (res : Nat) :
    (commonBlocks r res).any isForced = decide (0 < r.min_sr ∧ r.min_sr = r.max_sr) := by
  by_cases hc : 0 < r.min_sr ∧ r.min_sr = r.max_sr
  · rw [decide_eq_true hc]
    simp only [commonBlocks, if_pos hc]
    simp [isForced]
  · rw [decide_eq_false hc]
    simp only [commonBlocks, if_neg hc]
    simp [isForced]

theorem forced_mem_commonBlocks (r : DevRecord) (res : Nat) (nm f : String) (ch rt : Nat)
    (hb : Block.forced nm f ch rt ∈ commonBlocks r res) :
    (0 < r.min_sr ∧ r.min_sr = r.max_sr) ∧ nm = "playback" ∧ f = fbFormat r
    ∧ ch = fbChannels r ∧ rt = fbRate r := by
  by_cases hc : 0 < r.min_sr ∧ r.min_sr = r.max_sr
  · simp only [commonBlocks, if_pos hc, List.append_assoc, List.cons_append,
      List.nil_append, List.mem_cons, List.mem_singleton] at hb
    rcases hb with hb | hb | hb | hb <;> first
      | (cases hb; exact ⟨hc, rfl, rfl, rfl, rfl⟩)
      | simp at hb
  · simp [commonBlocks, if_neg hc] at hb

theorem forced_mem_emitBody (r : DevRecord) (cap : Option DevRecord) (ct : Int) (res : Nat)
    (pt : Int) (ssw sdef : Bool) (nm f : String) (ch rt : Nat)
    (hb : Block.forced nm f ch rt ∈ emitBody r cap ct res pt ssw sdef) :
    (0 < r.min_sr ∧ r.min_sr = r.max_sr) ∧ nm = "playback" ∧ f = fbFormat r
    ∧ ch = fbChannels r ∧ rt = fbRate r := by
  have hcap := any_isForced_captureBlocks cap ct
  have hpb := any_isForced_playbackBlocks pt ssw sdef (fbFormat r) (fbChannels r) (fbRate r)
    (capturePCM cap ct)
  simp only [emitBody, List.mem_cons, List.mem_append] at hb
  rcases hb with hb | hb | hb | hb
  · simp at hb
  · have hany : (captureBlocks cap ct).any isForced = true :=
      List.any_eq_true.mpr ⟨_, hb, rfl⟩
    exact absurd hany (by simp [hcap])
  · exact forced_mem_commonBlocks r res nm f ch rt hb
  · have hany : (playbackBlocks pt ssw sdef (fbFormat r) (fbChannels r) (fbRate r)
        (capturePCM cap ct)).any isForced = true :=
      List.any_eq_true.mpr ⟨_, hb, rfl⟩
    exact absurd hany (by simp [hpb])

/-- Sample hardware reply for a single-rate card (44100 only). -/
def hSingleRate : HwResponse := ⟨2, 2, 44100, 44100, ["S16_LE"], none, true, true⟩

/-- C3: for a playback record produced by a successful scan of hardware
    whose set_rate_near replies stay inside the reported range, the emitted
    artifact contains a forced-parameter override block if and only if the
    rate range is a single point min_sr = max_sr > 0, and any emitted forced
    block pins the playback stage to exactly that single rate. -/
theorem forced_block_iff_single_rate (h : HwResponse) (c d : Nat) (cap : Option DevRecord)
    (ct : Int) (res : Nat) (pt : Int) (ssw sdef : Bool)
    (hnear : ∀ rr, h.rateNear = some rr → h.min_sr ≤ rr ∧ rr ≤ h.max_sr) :
    ((emitBody (scanRow c d (.ok h)) cap ct res pt ssw sdef).any isForced = true
      ↔ (0 < h.min_sr ∧ h.min_sr = h.max_sr))
    ∧ (∀ nm f ch rt,
        Block.forced nm f ch rt ∈ emitBody (scanRow c d (.ok h)) cap ct res pt ssw sdef →
        nm = "playback" ∧ rt = h.min_sr) := by
  constructor
  · simp [emitBody, List.any_append, any_isForced_captureBlocks,
      any_isForced_playbackBlocks, any_isForced_commonBlocks, isForced, scanRow]
  · intro nm f ch rt hb
    obtain ⟨hc, hnm, hf, hch, hrt⟩ := forced_mem_emitBody _ _ _ _ _ _ _ _ _ _ _ hb
    refine ⟨hnm, ?_⟩
    simp only [scanRow] at hc
    have hneg : negotiatedRate h = h.min_sr := by
      cases hr : h.rateNear with
      | none => simp [negotiatedRate, hr]
      | some rr =>
        have h1 := hnear rr hr
        have h2 : rr = h.min_sr := by omega
        simp [negotiatedRate, hr, h2]
    have h0 : ¬ (h.min_sr = 0) := by omega
    subst hrt
    simp [fbRate, scanRow, hneg, h0]

/-- Witness for C3: a single-rate card produces a forced block. -/
theorem forced_block_iff_single_rate_witness :
    (0 < hSingleRate.min_sr ∧ hSingleRate.min_sr = hSingleRate.max_sr)
    ∧ (emitBody (scanRow 0 0 (.ok hSingleRate)) none (-1) 1 1 false false).any isForced
        = true :=
  ⟨by decide,
   (forced_block_iff_single_rate hSingleRate 0 0 none (-1) 1 1 false false
      (fun rr hrr => nomatch hrr)).1.mpr (by decide)⟩

theorem mem_pcmNames_append_left (l₁ l₂ : List Block) (s : String) (hs : s ∈ pcmNames l₁) :
    s ∈ pcmNames (l₁ ++ l₂) := by
  rw [pcmNames, List.filterMap_append]
  exact List.mem_append_left _ hs

theorem mem_pcmNames_append_right (l₁ l₂ : List Block) (s : String) (hs : s ∈ pcmNames l₂) :
    s ∈ pcmNames (l₁ ++ l₂) := by
  rw [pcmNames, List.filterMap_append]
  exact List.mem_append_right _ hs

theorem mem_pcmNames_cons (b : Block) (l : List Block) (s : String) (hs : s ∈ pcmNames l) :
    s ∈ pcmNames (b :: l) := by
  rcases hbn : nameOf b with _ | a
  · simpa [pcmNames, hbn] using hs
  · simp only [pcmNames, List.filterMap_cons, hbn]
    exact List.mem_cons_of_mem _ hs

theorem playback_mem_pcmNames_commonBlocks (r : DevRecord) (res : Nat) :
    "playback" ∈ pcmNames (commonBlocks r res) := by
  by_cases hc : 0 < r.min_sr ∧ r.min_sr = r.max_sr
  · simp [commonBlocks, if_pos hc, pcmNames, nameOf]
  · simp [commonBlocks, if_neg hc, pcmNames, nameOf]

theorem playbackBlocks_hw (ssw sdef : Bool) (f : String) (ch rt : Nat) (cp : Option String) :
    playbackBlocks 0 ssw sdef f ch rt cp =
      [Block.pbComment 0] ++
      (if ssw then
         add_streamOut "stream" ASCONFIG_STREAM_INPUT_FORMAT
           (if sdef then "playback" else "null") ASCONFIG_STREAM_COMMAND
       else []) ++
      add_default (if ssw && sdef then "stream" else "playback") cp := rfl

theorem playbackBlocks_plug (ssw sdef : Bool) (f : String) (ch rt : Nat) (cp : Option String) :
    playbackBlocks 1 ssw sdef f ch rt cp =
      [Block.pbComment 1] ++
      (if ssw then
         add_streamOut "stream" ASCONFIG_STREAM_INPUT_FORMAT
           (if sdef then "playback" else "null") ASCONFIG_STREAM_COMMAND
       else []) ++
      add_plug "match" (if ssw && sdef then "stream" else "playback") ++
      add_default "match" cp := rfl

theorem playbackBlocks_dmix (ssw sdef : Bool) (f : String) (ch rt : Nat) (cp : Option String) :
    playbackBlocks 2 ssw sdef f ch rt cp =
      [Block.pbComment 2] ++
      (if ssw then
         add_dmixStream "streamvol" "mix" "stream" ++
           add_streamOut "stream" ASCONFIG_STREAM_INPUT_FORMAT "streamvol"
             ASCONFIG_STREAM_COMMAND
       else []) ++
      add_plug "match" "mix" ++
      add_dmix "mix" "playback" f ch rt ++
      add_default "match" cp := rfl

/-- C7: in each of the three recognized playback modes, the emitted sequence
    ends with the default-selector block, and the playback reference written
    into it names a stage defined by a block emitted earlier in the
    sequence. -/
theorem default_selector_ref_resolves (r : DevRecord) (cap : Option DevRecord) (ct : Int)
    (res : Nat) (pt : Int) (ssw sdef : Bool) (hm : pt = 0 ∨ pt = 1 ∨ pt = 2) :
    ∃ pre p, emitBody r cap ct res pt ssw sdef
        = pre ++ [Block.defaultPcm p (capturePCM cap ct)] ∧ p ∈ pcmNames pre := by
  rcases hm with rfl | rfl | rfl
  · cases ssw with
    | false =>
      refine ⟨Block.header :: (captureBlocks cap ct ++
          (commonBlocks r res ++ [Block.pbComment 0])), "playback", ?_, ?_⟩
      · simp [emitBody, playbackBlocks_hw, add_default, List.append_assoc]
      · exact mem_pcmNames_cons _ _ _ (mem_pcmNames_append_right _ _ _
          (mem_pcmNames_append_left _ _ _ (playback_mem_pcmNames_commonBlocks r res)))
    | true =>
      cases sdef with
      | false =>
        refine ⟨Block.header :: (captureBlocks cap ct ++ (commonBlocks r res ++
            [Block.pbComment 0, Block.fileOut "stream" ASCONFIG_STREAM_INPUT_FORMAT "null"
              ASCONFIG_STREAM_COMMAND])), "playback", ?_, ?_⟩
        · simp [emitBody, playbackBlocks_hw, add_default, add_streamOut, List.append_assoc]
        · exact mem_pcmNames_cons _ _ _ (mem_pcmNames_append_right _ _ _
            (mem_pcmNames_append_left _ _ _ (playback_mem_pcmNames_commonBlocks r res)))
      | true =>
        refine ⟨Block.header :: (captureBlocks cap ct ++ (commonBlocks r res ++
            [Block.pbComment 0, Block.fileOut "stream" ASCONFIG_STREAM_INPUT_FORMAT "playback"
              ASCONFIG_STREAM_COMMAND])), "stream", ?_, ?_⟩
        · simp [emitBody, playbackBlocks_hw, add_default, add_streamOut, List.append_assoc]
        · apply mem_pcmNames_cons
          apply mem_pcmNames_append_right
          apply mem_pcmNames_append_right
          simp [pcmNames, nameOf]
  · refine ⟨Block.header :: (captureBlocks cap ct ++ (commonBlocks r res ++
        ([Block.pbComment 1] ++
          ((if ssw then add_streamOut "stream" ASCONFIG_STREAM_INPUT_FORMAT
              (if sdef then "playback" else "null") ASCONFIG_STREAM_COMMAND else []) ++
            add_plug "match" (if ssw && sdef then "stream" else "playback"))))),
      "match", ?_, ?_⟩
    · simp [emitBody, playbackBlocks_plug, add_default, add_plug, add_streamOut,
        List.append_assoc]
    · apply mem_pcmNames_cons
      apply mem_pcmNames_append_right
      apply mem_pcmNames_append_right
      apply mem_pcmNames_append_right
      apply mem_pcmNames_append_right
      simp [pcmNames, nameOf, add_plug]
  · refine ⟨Block.header :: (captureBlocks cap ct ++ (commonBlocks r res ++
        ([Block.pbComment 2] ++
          ((if ssw then add_dmixStream "streamvol" "mix" "stream" ++
              add_streamOut "stream" ASCONFIG_STREAM_INPUT_FORMAT "streamvol"
                ASCONFIG_STREAM_COMMAND else []) ++
            (add_plug "match" "mix" ++
              add_dmix "mix" "playback" (fbFormat r) (fbChannels r) (fbRate r)))))),
      "match", ?_, ?_⟩
    · simp [emitBody, playbackBlocks_dmix, add_default, add_plug, add_dmix, add_dmixStream,
        add_streamOut, List.append_assoc]
    · apply mem_pcmNames_cons
      apply mem_pcmNames_append_right
      apply mem_pcmNames_append_right
      apply mem_pcmNames_append_right
      apply mem_pcmNames_append_right
      apply mem_pcmNames_append_left
      simp [pcmNames, nameOf, add_plug]

/-- Witness for C7 at a concrete record in shared (dmix) mode. -/
theorem default_selector_ref_resolves_witness :
    ∃ pre p, emitBody freeRec none (-1) 1 2 false false
        = pre ++ [Block.defaultPcm p (capturePCM none (-1))] ∧ p ∈ pcmNames pre :=
  default_selector_ref_resolves freeRec none (-1) 1 2 false false (Or.inr (Or.inr rfl))

/-- The ordering property claimed for slave references: any slave name that
    is defined by some block of the artifact is already defined by a block
    strictly before the referring one. -/
def noForwardRefs (l : List Block) : Bool :=
  (List.range l.length).all fun i =>
    match slaveOf (l.getD i .header) with
    | none => true
    | some s => !(pcmNames l).contains s || (pcmNames (l.take i)).contains s

/-- Whether every slave reference of l resolves in the name list ns or is
    the built-in null device. -/
def slavesOkIn (ns : List String) (l : List Block) : Bool :=
  l.all fun b =>
    match slaveOf b with
    | none => true
    | some s => s == "null" || decide (s ∈ ns)

theorem slavesOkIn_spec (ns : List String) (l : List Block) (h : slavesOkIn ns l = true) :
    ∀ b ∈ l, ∀ s, slaveOf b = some s → s = "null" ∨ s ∈ ns := by
  intro b hb s hs
  have hball := (List.all_eq_true.mp h) b hb
  rw [hs] at hball
  simp only [Bool.or_eq_true, beq_iff_eq, decide_eq_true_eq] at hball
  exact hball

theorem capture_slavesOk (cap : Option DevRecord) (ct : Int) :
    slavesOkIn (pcmNames (captureBlocks cap ct)) (captureBlocks cap ct) = true := by
  cases cap with
  | none => rfl
  | some cr =>
    by_cases h0 : ct = 0
    · subst h0; rfl
    · by_cases h1 : ct = 1
      · subst h1; rfl
      · by_cases h2 : ct = 2
        · subst h2; rfl
        · simp [captureBlocks, h0, h1, h2, slavesOkIn, pcmNames, nameOf, slaveOf]

theorem common_slavesOk (r : DevRecord) (res : Nat) (ns : List String) :
    slavesOkIn ns (commonBlocks r res) = true := by
  by_cases hc : 0 < r.min_sr ∧ r.min_sr = r.max_sr
  · simp [commonBlocks, if_pos hc, slavesOkIn, slaveOf]
  · simp [commonBlocks, if_neg hc, slavesOkIn, slaveOf]

theorem playback_slavesOk (pt : Int) (ssw sdef : Bool) (f : String) (ch rt : Nat)
    (cp : Option String) :
    slavesOkIn ("playback" :: pcmNames (playbackBlocks pt ssw sdef f ch rt cp))
      (playbackBlocks pt ssw sdef f ch rt cp) = true := by
  by_cases h0 : pt = 0
  · subst h0; cases ssw <;> cases sdef <;> rfl
  · by_cases h1 : pt = 1
    · subst h1; cases ssw <;> cases sdef <;> rfl
    · by_cases h2 : pt = 2
      · subst h2; cases ssw <;> cases sdef <;> rfl
      · simp [playbackBlocks, h0, h1, h2, add_default, slavesOkIn, slaveOf]

/-- C5 counterexample: in shared (dmix) mode the code emits the adapter
    block (slave "mix") before the mixer block that defines "mix", so the
    claimed no-forward-reference ordering is false on this concrete run. -/
theorem slave_refs_forward_counterexample :
    noForwardRefs (emitBody freeRec none (-1) 1 2 false false) = false := by decide

/-- C5 amended: every slave reference carried by an emitted block names a
    stage defined by some block of the same artifact (earlier or later) or
    the built-in null device; the stage may be emitted after the referring
    block, as the counterexample shows. -/
theorem slave_refs_resolve_amended (r : DevRecord) (cap : Option DevRecord) (ct : Int)
    (res : Nat) (pt : Int) (ssw sdef : Bool) :
    ∀ b ∈ emitBody r cap ct res pt ssw sdef, ∀ s, slaveOf b = some s →
      s = "null" ∨ s ∈ pcmNames (emitBody r cap ct res pt ssw sdef) := by
  intro b hb s hs
  have hcapL := slavesOkIn_spec _ _ (capture_slavesOk cap ct)
  have hcomL := slavesOkIn_spec _ _ (common_slavesOk r res [])
  have hpbL := slavesOkIn_spec _ _ (playback_slavesOk pt ssw sdef (fbFormat r) (fbChannels r)
    (fbRate r) (capturePCM cap ct))
  simp only [emitBody, List.mem_cons, List.mem_append] at hb
  rcases hb with rfl | hb | hb | hb
  · simp [slaveOf] at hs
  · rcases hcapL b hb s hs with h | h
    · exact Or.inl h
    · exact Or.inr (mem_pcmNames_cons _ _ _ (mem_pcmNames_append_left _ _ _ h))
  · rcases hcomL b hb s hs with h | h
    · exact Or.inl h
    · simp at h
  · rcases hpbL b hb s hs with h | h
    · exact Or.inl h
    · rcases List.mem_cons.mp h with rfl | h2
      · exact Or.inr (mem_pcmNames_cons _ _ _ (mem_pcmNames_append_right _ _ _
          (mem_pcmNames_append_left _ _ _ (playback_mem_pcmNames_commonBlocks r res))))
      · exact Or.inr (mem_pcmNames_cons _ _ _ (mem_pcmNames_append_right _ _ _
          (mem_pcmNames_append_right _ _ _ h2)))

/-- Witness for C5 amended: the adapter's forward slave reference "mix"
    does resolve within the same artifact. -/
theorem slave_refs_resolve_amended_witness :
    ("mix" : String) = "null" ∨ "mix" ∈ pcmNames (emitBody freeRec none (-1) 1 2 false false) :=
  slave_refs_resolve_amended freeRec none (-1) 1 2 false false (Block.plug "match" "mix")
    (by decide) "mix" rfl

/-- C6 counterexample: in shared (dmix) mode with the stream tap enabled and
    marked default, the default selector emitted on this concrete run
    references the adapter "match", and no default selector referencing the
    file-sink stage "stream" is emitted, contrary to the claim. -/
theorem dmix_default_ref_counterexample :
    Block.defaultPcm "stream" none ∉ emitBody freeRec none (-1) 1 2 true true
    ∧ Block.defaultPcm "match" none ∈ emitBody freeRec none (-1) 1 2 true true := by decide

/-- C6 amended: in shared (dmix) mode with the stream tap enabled and marked
    default and no capture selection, the artifact is exactly: hardware
    stage (with the forced block when the rate range is a single point),
    rate-converter and ctl blocks, then the volume-tap stage, the file-sink
    stage slaved to the volume-tap, the adapter "match" slaved to the mixer,
    the mixer slaved to the hardware stage, and a default selector whose
    playback reference is the adapter "match" (not the file-sink name: the
    shared branch never consults the stream-is-default flag). -/
theorem dmix_stream_layout_amended (r : DevRecord) (ct : Int) (res : Nat) :
    emitBody r none ct res 2 true true =
      Block.header :: ([Block.hwPcm "playback" r.card r.dev] ++
        (if 0 < r.min_sr ∧ r.min_sr = r.max_sr then
           [Block.forced "playback" (fbFormat r) (fbChannels r) (fbRate r)]
         else []) ++
        [Block.rateConv (resamplers.getD res ""), Block.ctlDefault r.card,
         Block.pbComment 2, Block.dmixNote "stream",
         Block.softvol "streamvol" "mix",
         Block.fileOut "stream" ASCONFIG_STREAM_INPUT_FORMAT "streamvol"
           ASCONFIG_STREAM_COMMAND,
         Block.plug "match" "mix",
         Block.dmix "mix" "playback" (fbFormat r) (fbChannels r) (fbRate r),
         Block.defaultPcm "match" none]) := by
  simp [emitBody, captureBlocks, capturePCM, commonBlocks, playbackBlocks_dmix,
    add_dmixStream, add_streamOut, add_plug, add_dmix, add_default, List.append_assoc]

/-- C1 counterexample: at the unrecognized playback mode 3 the generator
    does not fail: it reports success and writes an artifact containing
    stage blocks (the common setup and a default selector). -/
theorem unknown_mode_counterexample :
    (print_asoundrc (some freeRec) none (-1) 1 3 false false false (-8) true).1
        = GenOutcome.written
    ∧ (print_asoundrc (some freeRec) none (-1) 1 3 false false false (-8) true).2
        = some [Block.header, Block.hwPcm "playback" 0 0,
            Block.rateConv "speexrate_medium", Block.ctlDefault 0,
            Block.defaultPcm "playback" none] := by decide

/-- C1 amended: for an unrecognized playback mode the generator logs a
    warning but still writes a complete artifact: the capture section and
    common setup followed by a bare default selector referencing the
    hardware playback stage; no mode-specific stage is emitted but the
    write is not aborted. -/
theorem unknown_mode_emits_default_amended (r : DevRecord) (cap : Option DevRecord)
    (ct : Int) (res : Nat) (pt : Int) (ssw sdef : Bool) (resp : Int)
    (hm : ¬(pt = 0 ∨ pt = 1 ∨ pt = 2)) (hfree : r.in_use = none) :
    print_asoundrc (some r) cap ct res pt ssw sdef false resp true
      = (.written, some (Block.header :: (captureBlocks cap ct ++ (commonBlocks r res ++
          [Block.defaultPcm "playback" (capturePCM cap ct)])))) := by
  have h0 : ¬ pt = 0 := fun h => hm (Or.inl h)
  have h1 : ¬ pt = 1 := fun h => hm (Or.inr (Or.inl h))
  have h2 : ¬ pt = 2 := fun h => hm (Or.inr (Or.inr h))
  simp [print_asoundrc, hfree, emitBody, playbackBlocks, h0, h1, h2, add_default]

/-- Witness for C1 amended at the concrete unknown mode 3. -/
theorem unknown_mode_emits_default_amended_witness :
    print_asoundrc (some freeRec) none (-1) 1 3 false false false (-8) true
      = (.written, some (Block.header :: (captureBlocks none (-1) ++ (commonBlocks freeRec 1 ++
          [Block.defaultPcm "playback" (capturePCM none (-1))])))) :=
  unknown_mode_emits_default_amended freeRec none (-1) 1 3 false false (-8) (by decide) rfl

/-- C8 counterexample: with a prior artifact present, dismissing the
    confirmation dialog (GTK_RESPONSE_DELETE_EVENT, not the affirmative Yes)
    still overwrites the artifact, so an explicit affirmative confirmation
    is not required. -/
theorem overwrite_dismiss_counterexample :
    (print_asoundrc (some freeRec) none (-1) 1 1 false false true GTK_RESPONSE_DELETE_EVENT
        true).2 ≠ none
    ∧ GTK_RESPONSE_DELETE_EVENT ≠ GTK_RESPONSE_YES := by decide

/-- C8 amended: when a prior artifact exists, generation aborts as a silent
    no-op (destination untouched) exactly on an explicit decline
    (GTK_RESPONSE_NO); any other dialog response proceeds to the truncating
    overwrite (or the open-failure report). -/
theorem overwrite_decline_no_op_amended (r : DevRecord) (cap : Option DevRecord) (ct : Int)
    (res : Nat) (pt : Int) (ssw sdef : Bool) (resp : Int) (opok : Bool)
    (hfree : r.in_use = none) :
    (print_asoundrc (some r) cap ct res pt ssw sdef true GTK_RESPONSE_NO opok
        = (.overwriteDeclined, none))
    ∧ (resp ≠ GTK_RESPONSE_NO →
        print_asoundrc (some r) cap ct res pt ssw sdef true resp opok
          = if opok then (.written, some (emitBody r cap ct res pt ssw sdef))
            else (.openFailed, none)) := by
  constructor
  · simp [print_asoundrc, hfree]
  · intro hr
    cases opok <;> simp [print_asoundrc, hfree, hr]

/-- Witness for C8 amended: an explicit decline at a concrete input is a
    no-op. -/
theorem overwrite_decline_no_op_amended_witness :
    print_asoundrc (some freeRec) none (-1) 1 1 false false true GTK_RESPONSE_NO true
      = (.overwriteDeclined, none) :=
  (overwrite_decline_no_op_amended freeRec none (-1) 1 1 false false (-8) true rfl).1

/-- C10: in shared (dmix) playback mode the result is independent of the
    stream-is-default flag: two runs differing only in that flag produce
    identical outcomes and identical emitted block sequences (hence
    byte-identical artifacts, the bytes being a function of the block
    sequence). -/
theorem dmix_artifact_ignores_streamDefault (psel cap : Option DevRecord) (ct : Int)
    (res : Nat) (ssw : Bool) (prior : Bool) (resp : Int) (opok : Bool) :
    print_asoundrc psel cap ct res 2 ssw true prior resp opok
      = print_asoundrc psel cap ct res 2 ssw false prior resp opok := by
  cases psel <;> rfl
